import Mathlib

/-!
Shallow embedding of the todo-app backend (`src/backend/main.py`) and proofs
about its operations.

The persistence layer is modelled as an explicit `Store` value holding the
two tables (`User`, `Todo`) together with the auto-increment counters the
relational store would maintain for the integer primary keys.  Each endpoint
handler becomes a pure function from its request data and the store to a
result paired with the post-state store; `raise HTTPException` becomes the
`Except.error` constructor carrying the status code and detail string.
The nondeterministic credential generator `uuid4().hex` is modelled as an
explicit `freshKey` argument to `register`.
-/

namespace TodoApp

/-- Row of the `user` table (`class User` in `main.py`): integer primary key,
unique username, unique api_key. -/
structure User where
  id : Nat
  username : String
  api_key : String
deriving DecidableEq

/-- Row of the `todo` table (`class Todo` in `main.py`): integer primary key,
title, completion flag (defaulting to false at creation), owner id. -/
structure Todo where
  id : Nat
  title : String
  done : Bool
  user_id : Nat
deriving DecidableEq

/-- Request body of PUT `/todos/:id` (`class TodoUpdate`): both fields
optional, `none` meaning "field absent from the request". -/
structure TodoUpdate where
  title : Option String
  done : Option Bool
deriving DecidableEq

/-- Response body of POST `/register` (`class UserPublic`). -/
structure UserPublic where
  username : String
  api_key : String
deriving DecidableEq

/-- Payload of `raise HTTPException(status_code, detail)`. -/
structure HTTPError where
  status_code : Nat
  detail : String
deriving DecidableEq

/-- The relational store: the two tables plus the auto-increment counters
that generate the integer primary keys. -/
structure Store where
  users : List User
  todos : List Todo
  nextUserId : Nat
  nextTodoId : Nat
deriving DecidableEq

/-- Lookup `session.exec(select(User).where(User.api_key == k)).first()`. -/
def findUserByKey (s : Store) (k : String) : Option User :=
  s.users.find? (fun u => u.api_key == k)

/-- Lookup `session.exec(select(User).where(User.username == n)).first()`. -/
def findUserByName (s : Store) (n : String) : Option User :=
  s.users.find? (fun u => u.username == n)

/-- Lookup `session.get(Todo, todo_id)` — by primary key in the todo table. -/
def sessionGetTodo (todo_id : Nat) (s : Store) : Option Todo :=
  s.todos.find? (fun t => t.id == todo_id)

/-- Handler `get_current_user` from `main.py`: resolve the `X-API-Key` header value
to a `User` or raise 401.  A `none` header and an empty-string header are
both falsy under Python's `if not x_api_key`.  The store is returned
untouched on every path (the handler only reads). -/
def get_current_user (x_api_key : Option String) (s : Store) :
    Except HTTPError User × Store :=
  match x_api_key with
  | none => (.error ⟨401, "Missing API key"⟩, s)
  | some k =>
    if k.isEmpty then
      (.error ⟨401, "Missing API key"⟩, s)
    else
      match findUserByKey s k with
      | none => (.error ⟨401, "Invalid API key"⟩, s)
      | some u => (.ok u, s)

/-- Handler `register` from `main.py`.  `freshKey` stands for the generated
`uuid4().hex` token.  If the username already exists the existing row's
public view is returned and nothing is written; otherwise one new `User`
row is inserted and its public view returned. -/
def register (username : String) (freshKey : String) (s : Store) :
    UserPublic × Store :=
  match findUserByName s username with
  | some existing => (⟨existing.username, existing.api_key⟩, s)
  | none =>
    let user : User := ⟨s.nextUserId, username, freshKey⟩
    (⟨user.username, user.api_key⟩,
      { s with users := s.users ++ [user], nextUserId := s.nextUserId + 1 })

/-- Handler `list_todos` from `main.py`: all todos whose `user_id` is the
authenticated user's id. -/
def list_todos (current_user : User) (s : Store) : List Todo :=
  s.todos.filter (fun t => t.user_id == current_user.id)

/-- Handler `create_todo` from `main.py`: insert one `Todo` with the given title,
`done` defaulted to `false`, owner = the authenticated user; return the
refreshed row (with its generated id) and the new store. -/
def create_todo (title : String) (current_user : User) (s : Store) :
    Todo × Store :=
  let todo : Todo := ⟨s.nextTodoId, title, false, current_user.id⟩
  (todo, { s with todos := s.todos ++ [todo], nextTodoId := s.nextTodoId + 1 })

/-- Handler `update_todo` from `main.py`: primary-key lookup, ownership check
(404 "Todo not found" on miss or foreign owner), then in-place assignment
of exactly the fields present in the payload, commit, return the row. -/
def update_todo (todo_id : Nat) (payload : TodoUpdate) (current_user : User)
    (s : Store) : Except HTTPError Todo × Store :=
  match sessionGetTodo todo_id s with
  | none => (.error ⟨404, "Todo not found"⟩, s)
  | some todo =>
    if todo.user_id ≠ current_user.id then
      (.error ⟨404, "Todo not found"⟩, s)
    else
      let title' := match payload.title with
        | none => todo.title
        | some t => t
      let done' := match payload.done with
        | none => todo.done
        | some d => d
      let todo' : Todo := ⟨todo.id, title', done', todo.user_id⟩
      (.ok todo',
        { s with todos := s.todos.map (fun t => if t.id == todo_id then todo' else t) })

/-- Handler `delete_todo` from `main.py`: same lookup/ownership check as update,
then `session.delete` of the row found by primary key. -/
def delete_todo (todo_id : Nat) (current_user : User) (s : Store) :
    Except HTTPError Unit × Store :=
  match sessionGetTodo todo_id s with
  | none => (.error ⟨404, "Todo not found"⟩, s)
  | some todo =>
    if todo.user_id ≠ current_user.id then
      (.error ⟨404, "Todo not found"⟩, s)
    else
      (.ok (), { s with todos := s.todos.filter (fun t => !(t.id == todo_id)) })

/-- Aggregate result of `/stats` and `/stats-pandas`. -/
structure Stats where
  total : Nat
  done : Nat
  not_done : Nat
deriving DecidableEq

/-- Handler helper `_compute_stats_for_user` from `main.py`: select the user's todos;
empty list short-circuits to `{0,0,0}`; otherwise `total = len(df)`,
`done = df["done"].sum()` (count of `True`), `not_done = total - done`. -/
def compute_stats_for_user (current_user : User) (s : Store) : Stats :=
  let todos := s.todos.filter (fun t => t.user_id == current_user.id)
  if todos.isEmpty then
    ⟨0, 0, 0⟩
  else
    let total := todos.length
    let done := (todos.filter (fun t => t.done)).length
    ⟨total, done, total - done⟩

/-- One field of a CSV line as `pandas.DataFrame.to_csv` renders it with the
default minimal quoting: quoted (with inner quotes doubled) exactly when the
value contains the separator, a quote, or a line break. -/
def csvField (v : String) : String :=
  if v.data.any (fun c => c == ',' || c == '"' || c == '\n' || c == '\r') then
    "\"" ++ (v.replace "\"" "\"\"") ++ "\""
  else v

/-- The Python `str` rendering of a bool, as `to_csv` emits the `done` column. -/
def csvBool (b : Bool) : String :=
  if b then "True" else "False"

/-- One data row of the export: `id,title,done` values, newline-terminated. -/
def todoCsvRow (t : Todo) : String :=
  toString t.id ++ "," ++ csvField t.title ++ "," ++ csvBool t.done ++ "\n"

/-- The `StreamingResponse` produced by `/todos/export`. -/
structure CsvResponse where
  body : String
  media_type : String
  content_disposition : String
deriving DecidableEq

/-- Handler `export_todos_csv` from `main.py`: the user's todos rendered by
`DataFrame.to_csv(index=False)` — header `id,title,done` then one row per
todo (columns id, title, done, in frame order), shipped as a `text/csv`
attachment named `todos.csv`.  An empty selection goes through the
explicit empty frame with those three columns, i.e. header only. -/
def export_todos_csv (current_user : User) (s : Store) : CsvResponse :=
  let todos := s.todos.filter (fun t => t.user_id == current_user.id)
  { body := "id,title,done\n" ++ String.join (todos.map todoCsvRow),
    media_type := "text/csv",
    content_disposition := "attachment; filename=\"todos.csv\"" }

/-! ### Concrete fixtures used by witnesses and counterexamples -/

/-- A registered account, as after `register "alice" "k1"` on a fresh store. -/
def userA : User := ⟨1, "alice", "k1"⟩

/-- A second registered account. -/
def userB : User := ⟨2, "bob", "k2"⟩

/-- A task owned by `userA` (title from the repository's own test flow). -/
def todoA : Todo := ⟨1, "Kup mleko", false, 1⟩

/-- A store holding `userA`, `userB` and `todoA`. -/
def storeA : Store := ⟨[userA, userB], [todoA], 3, 2⟩

/-! ### Helper lemmas -/

/-- Replacing (by `map`) every element whose id matches the one `find?`
located yields a list where `find?` locates the replacement. -/
theorem find?_map_replace (l : List Todo) (tid : Nat) (todo todo' : Todo)
    (h : l.find? (fun t => t.id == tid) = some todo) (hid : todo'.id = tid) :
    (l.map (fun t => if t.id == tid then todo' else t)).find?
      (fun t => t.id == tid) = some todo' := by
  induction l with
  | nil => simp at h
  | cons a l ih =>
    by_cases ha : a.id = tid
    · simp [List.find?_cons_of_pos, ha, hid]
    · rw [List.find?_cons_of_neg _ (by simp [ha])] at h
      simpa [List.find?_cons_of_neg, ha] using ih h

/-! ### Claims -/

/-- C9: an `X-API-Key` header that is present but empty is rejected exactly
like an absent header — 401 "Missing API key" — rather than being looked up
as an invalid credential. -/
theorem empty_key_rejected_as_missing (s : Store) :
    get_current_user (some "") s = get_current_user none s ∧
    get_current_user none s = (.error ⟨401, "Missing API key"⟩, s) := by
  constructor <;> rfl

/-- C7: for any title (no emptiness check), `create_todo` adds exactly one
new task with that title, completion flag false and owner = the
authenticated account, returns it (with its generated id), and the task
appears in a subsequent listing. -/
theorem create_todo_spec (title : String) (u : User) (s : Store) :
    (create_todo title u s).1.title = title ∧
    (create_todo title u s).1.done = false ∧
    (create_todo title u s).1.user_id = u.id ∧
    (create_todo title u s).2.todos = s.todos ++ [(create_todo title u s).1] ∧
    (create_todo title u s).2.users = s.users ∧
    (create_todo title u s).1 ∈ list_todos u (create_todo title u s).2 := by
  refine ⟨rfl, rfl, rfl, rfl, rfl, ?_⟩
  simp [create_todo, list_todos]

/-- C5: stats = `{total, done, not_done}` with `total` the number of tasks
owned by the account, `done` the number of those with completion flag true,
`not_done = total - done` (with `done ≤ total`), and `{0,0,0}` when the
account owns no tasks. -/
theorem stats_spec (u : User) (s : Store) :
    (compute_stats_for_user u s).total = (list_todos u s).length ∧
    (compute_stats_for_user u s).done =
      ((list_todos u s).filter (fun t => t.done)).length ∧
    (compute_stats_for_user u s).done ≤ (compute_stats_for_user u s).total ∧
    (compute_stats_for_user u s).not_done =
      (compute_stats_for_user u s).total - (compute_stats_for_user u s).done ∧
    (list_todos u s = [] → compute_stats_for_user u s = ⟨0, 0, 0⟩) := by
  unfold compute_stats_for_user list_todos
  by_cases h : (s.todos.filter (fun t => t.user_id == u.id)).isEmpty
  · rw [List.isEmpty_iff] at h
    simp [h]
  · have h' : ¬ (s.todos.filter (fun t => t.user_id == u.id)) = [] := by
      simpa [List.isEmpty_iff] using h
    simp only [h, if_false]
    exact ⟨rfl, rfl, List.length_filter_le _ _, rfl, fun he => absurd he h'⟩

/-- C5 witness: a concrete evaluation of the stats contract on `storeA`. -/
theorem stats_spec_witness :
    (compute_stats_for_user userA storeA).total = 1 ∧
    compute_stats_for_user userB storeA = ⟨0, 0, 0⟩ := by
  constructor
  · rw [(stats_spec userA storeA).1]; rfl
  · exact (stats_spec userB storeA).2.2.2.2 (by rfl)

/-- C1: on an existing task owned by the caller, `update_todo` applies
exactly the fields present in the payload: an absent title leaves the title
unchanged, an absent flag leaves the flag unchanged, a supplied field is
written, a fully-empty payload returns the task unchanged; the result is
returned and persisted (a subsequent primary-key lookup yields it). -/
theorem update_applies_only_present_fields (todo_id : Nat) (payload : TodoUpdate)
    (u : User) (s : Store) (todo : Todo)
    (hfind : sessionGetTodo todo_id s = some todo)
    (hown : todo.user_id = u.id) :
    ∃ todo',
      (update_todo todo_id payload u s).1 = .ok todo' ∧
      (payload.title = none → todo'.title = todo.title) ∧
      (payload.done = none → todo'.done = todo.done) ∧
      (∀ t, payload.title = some t → todo'.title = t) ∧
      (∀ d, payload.done = some d → todo'.done = d) ∧
      (payload.title = none → payload.done = none → todo' = todo) ∧
      sessionGetTodo todo_id (update_todo todo_id payload u s).2 = some todo' := by
  have hid : todo.id = todo_id := by
    have := List.find?_some hfind
    simpa using this
  unfold update_todo
  rw [hfind]
  simp only [hown, ne_eq, not_true_eq_false, if_false]
  refine ⟨_, rfl, ?_, ?_, ?_, ?_, ?_, ?_⟩
  · intro h; simp [h]
  · intro h; simp [h]
  · intro t h; simp [h]
  · intro d h; simp [h]
  · intro h1 h2; simp [h1, h2, ← hown]
  · exact find?_map_replace s.todos todo_id todo _ hfind hid

/-- C1 witness: updating `todoA` in `storeA` with only the flag supplied
leaves the title unchanged. -/
theorem update_applies_only_present_fields_witness :
    ∃ todo',
      (update_todo 1 ⟨none, some true⟩ userA storeA).1 = .ok todo' ∧
      todo'.title = todoA.title ∧ todo'.done = true := by
  obtain ⟨todo', hok, hti, -, -, hd, -, -⟩ :=
    update_applies_only_present_fields 1 ⟨none, some true⟩ userA storeA todoA
      (by rfl) (by rfl)
  exact ⟨todo', hok, hti rfl, hd true rfl⟩

/-- C10: a successful `update_todo` never changes the task's id or its
owning account id, whatever the payload supplies. -/
theorem update_preserves_id_and_owner (todo_id : Nat) (payload : TodoUpdate)
    (u : User) (s : Store) (todo : Todo)
    (hfind : sessionGetTodo todo_id s = some todo)
    (hown : todo.user_id = u.id) :
    ∃ todo',
      (update_todo todo_id payload u s).1 = .ok todo' ∧
      todo'.id = todo.id ∧ todo'.user_id = todo.user_id := by
  unfold update_todo
  rw [hfind]
  simp [hown]

/-- C10 witness: a concrete update on `storeA` keeps id and owner. -/
theorem update_preserves_id_and_owner_witness :
    ∃ todo',
      (update_todo 1 ⟨some "x", some true⟩ userA storeA).1 = .ok todo' ∧
      todo'.id = todoA.id ∧ todo'.user_id = todoA.user_id := by
  exact update_preserves_id_and_owner 1 ⟨some "x", some true⟩ userA storeA todoA
    (by rfl) (by rfl)

/-- The condition under which update/delete report 404: no task has the
identifier, or the task found by primary key is owned by another account. -/
def todoMiss (todo_id : Nat) (u : User) (s : Store) : Prop :=
  sessionGetTodo todo_id s = none ∨
    ∃ t, sessionGetTodo todo_id s = some t ∧ t.user_id ≠ u.id

/-- C2: `update_todo` and `delete_todo` fail with 404 "Todo not found"
exactly when the task is absent or owned by another account (the two cases
produce the identical error, leaking nothing), and in that case the store
is unchanged. -/
theorem update_delete_notfound_iff (todo_id : Nat) (payload : TodoUpdate)
    (u : User) (s : Store) :
    ((update_todo todo_id payload u s).1 = .error ⟨404, "Todo not found"⟩ ↔
      todoMiss todo_id u s) ∧
    ((delete_todo todo_id u s).1 = .error ⟨404, "Todo not found"⟩ ↔
      todoMiss todo_id u s) ∧
    (todoMiss todo_id u s → (update_todo todo_id payload u s).2 = s) ∧
    (todoMiss todo_id u s → (delete_todo todo_id u s).2 = s) := by
  unfold update_todo delete_todo todoMiss
  cases hf : sessionGetTodo todo_id s with
  | none => simp
  | some todo =>
    by_cases ho : todo.user_id = u.id
    · simp [ho]
    · simp [ho]

/-- C2 witness: deleting a task of `userA` while authenticated as `userB`
yields 404 and leaves the store unchanged. -/
theorem update_delete_notfound_iff_witness :
    (delete_todo 1 userB storeA).1 = .error ⟨404, "Todo not found"⟩ ∧
    (delete_todo 1 userB storeA).2 = storeA := by
  have h := update_delete_notfound_iff 1 ⟨none, none⟩ userB storeA
  have hmiss : todoMiss 1 userB storeA := Or.inr ⟨todoA, rfl, by decide⟩
  exact ⟨h.2.1.mpr hmiss, h.2.2.2 hmiss⟩

/-- C3 counterexample: the claim "a credential that is present but matches
no Account fails with 'Invalid API key'" is false at the concrete input
`some ""` on `storeA`: the empty string matches no account, yet the filter
answers 401 "Missing API key" (Python's `if not x_api_key` treats the empty
string as absent). -/
theorem auth_invalid_key_claim_false :
    ¬ (∀ (key : Option String) (s : Store) (k : String),
        key = some k → (∀ u ∈ s.users, u.api_key ≠ k) →
        (get_current_user key s).1 = .error ⟨401, "Invalid API key"⟩) := by
  intro hclaim
  have h := hclaim (some "") storeA "" rfl (by decide)
  have h' : (get_current_user (some "") storeA).1 =
      .error ⟨401, "Missing API key"⟩ := rfl
  rw [h'] at h
  have : "Missing API key" = "Invalid API key" :=
    congrArg HTTPError.detail (Except.error.inj h)
  exact absurd this (by decide)

/-- C3 (amended): the filter answers 401 "Missing API key" when the
credential is absent or empty, 401 "Invalid API key" when a nonempty
credential matches no account, and returns the unique matching account for
a nonempty credential; the store passes through unchanged on every path. -/
theorem get_current_user_spec (key : Option String) (s : Store) :
    ((key = none ∨ key = some "") →
      (get_current_user key s).1 = .error ⟨401, "Missing API key"⟩) ∧
    (∀ k, key = some k → k ≠ "" → (∀ u ∈ s.users, u.api_key ≠ k) →
      (get_current_user key s).1 = .error ⟨401, "Invalid API key"⟩) ∧
    (∀ k u, key = some k → k ≠ "" → u ∈ s.users → u.api_key = k →
      (∀ v ∈ s.users, ∀ w ∈ s.users, v.api_key = w.api_key → v = w) →
      (get_current_user key s).1 = .ok u) ∧
    (get_current_user key s).2 = s := by
  refine ⟨?_, ?_, ?_, ?_⟩
  · rintro (rfl | rfl) <;> rfl
  · rintro k rfl hk hnone
    have hfind : findUserByKey s k = none := by
      unfold findUserByKey
      rw [List.find?_eq_none]
      intro u hu
      simpa using hnone u hu
    have hke : k.isEmpty = false := by
      cases he : k.isEmpty
      · rfl
      · exact absurd ((String.isEmpty_iff _).mp he) hk
    simp [get_current_user, hke, hfind]
  · rintro k u rfl hk hu hkey huniq
    have hke : k.isEmpty = false := by
      cases he : k.isEmpty
      · rfl
      · exact absurd ((String.isEmpty_iff _).mp he) hk
    cases hfind : findUserByKey s k with
    | none =>
      exfalso
      have := List.find?_eq_none.mp hfind u hu
      simp [hkey] at this
    | some w =>
      have hwkey : w.api_key = k := by
        have := List.find?_some hfind
        simpa using this
      have hwmem : w ∈ s.users := List.mem_of_find?_eq_some hfind
      have hwu : w = u := huniq w hwmem u hu (hwkey.trans hkey.symm)
      simp [get_current_user, hke, hfind, hwu]
  · cases key with
    | none => rfl
    | some k =>
      by_cases hke : k.isEmpty
      · simp [get_current_user, hke]
      · cases hfind : findUserByKey s k <;>
          simp [get_current_user, hke, hfind]

/-- C3 witness: on `storeA`, the credential "k1" authenticates as `userA`,
and an unknown nonempty credential is rejected as invalid. -/
theorem get_current_user_spec_witness :
    (get_current_user (some "k1") storeA).1 = .ok userA ∧
    (get_current_user (some "zz") storeA).1 =
      .error ⟨401, "Invalid API key"⟩ := by
  constructor
  · exact (get_current_user_spec (some "k1") storeA).2.2.1 "k1" userA rfl
      (by decide) (by decide) rfl (by decide)
  · exact (get_current_user_spec (some "zz") storeA).2.1 "zz" rfl
      (by decide) (by decide)

/-- C4: registering an already-taken name returns the existing account's
public view and writes nothing; registering a fresh name inserts exactly
one new account row carrying the freshly generated credential, touches no
todos, and returns that account's public view. -/
theorem register_spec (username freshKey : String) (s : Store) :
    (∀ u, u ∈ s.users → u.username = username →
      (∀ v ∈ s.users, ∀ w ∈ s.users, v.username = w.username → v = w) →
      register username freshKey s = (⟨u.username, u.api_key⟩, s)) ∧
    ((∀ u ∈ s.users, u.username ≠ username) →
      (register username freshKey s).1 = ⟨username, freshKey⟩ ∧
      (register username freshKey s).2.users =
        s.users ++ [⟨s.nextUserId, username, freshKey⟩] ∧
      (register username freshKey s).2.todos = s.todos) := by
  constructor
  · intro u hu hname huniq
    cases hfind : findUserByName s username with
    | none =>
      exfalso
      have := List.find?_eq_none.mp hfind u hu
      simp [hname] at this
    | some w =>
      have hwname : w.username = username := by
        have := List.find?_some hfind
        simpa using this
      have hwmem : w ∈ s.users := List.mem_of_find?_eq_some hfind
      have hwu : w = u := huniq w hwmem u hu (hwname.trans hname.symm)
      simp [register, hfind, hwu]
  · intro hfresh
    have hfind : findUserByName s username = none := by
      unfold findUserByName
      rw [List.find?_eq_none]
      intro u hu
      simpa using hfresh u hu
    simp [register, hfind]

/-- C4 witness: on `storeA`, re-registering "alice" returns her existing
view without writing, and registering "carol" appends exactly one row. -/
theorem register_spec_witness :
    register "alice" "newkey" storeA = (⟨"alice", "k1"⟩, storeA) ∧
    (register "carol" "k3" storeA).2.users =
      storeA.users ++ [⟨3, "carol", "k3"⟩] := by
  constructor
  · exact (register_spec "alice" "newkey" storeA).1 userA (by decide) rfl
      (by decide)
  · exact ((register_spec "carol" "k3" storeA).2 (by decide)).2.1

/-- C6: the export body is the header line `id,title,done` followed by one
newline-terminated row per owned task — the id, the (minimally quoted)
title and the flag rendered `True`/`False`, in that order; a title free of
separators, quotes and line breaks is emitted verbatim; zero owned tasks
leave the header line only; the response is a `text/csv` attachment named
`todos.csv`. -/
theorem export_csv_spec (u : User) (s : Store) :
    (export_todos_csv u s).body =
      "id,title,done\n" ++ String.join ((list_todos u s).map (fun t =>
        toString t.id ++ "," ++ csvField t.title ++ "," ++
          (if t.done then "True" else "False") ++ "\n")) ∧
    (∀ v : String,
      v.data.any (fun c => c == ',' || c == '"' || c == '\n' || c == '\r') = false →
      csvField v = v) ∧
    (list_todos u s = [] → (export_todos_csv u s).body = "id,title,done\n") ∧
    (export_todos_csv u s).media_type = "text/csv" ∧
    (export_todos_csv u s).content_disposition =
      "attachment; filename=\"todos.csv\"" := by
  refine ⟨rfl, ?_, ?_, rfl, rfl⟩
  · intro v hv
    simp [csvField, hv]
  · intro hempty
    unfold export_todos_csv
    unfold list_todos at hempty
    rw [hempty]
    show "id,title,done\n" ++ String.join (List.map todoCsvRow []) = "id,title,done\n"
    rw [show String.join (List.map todoCsvRow []) = "" from rfl, String.append_empty]

/-- C6 witness: concrete exports from `storeA` — one row for `userA`,
header only for `userB`. -/
theorem export_csv_spec_witness :
    (export_todos_csv userA storeA).body = "id,title,done\n1,Kup mleko,False\n" ∧
    (export_todos_csv userB storeA).body = "id,title,done\n" := by
  constructor
  · rfl
  · exact (export_csv_spec userB storeA).2.2.1 (by rfl)

/-- C8 counterexample: "listing immediately after the registration call
that returned that credential yields an empty sequence" fails on the
idempotent duplicate path.  In `storeA`, where "alice" is registered and
owns a task, a second `register "alice"` call returns her original
credential "k1" and changes nothing; authenticating with that returned
credential and listing immediately afterwards yields her task, not the
empty sequence. -/
theorem list_after_register_claim_false :
    (register "alice" "fresh" storeA).1.api_key = "k1" ∧
    (register "alice" "fresh" storeA).2 = storeA ∧
    (get_current_user (some "k1") (register "alice" "fresh" storeA).2).1 =
      .ok userA ∧
    list_todos userA (register "alice" "fresh" storeA).2 = [todoA] ∧
    [todoA] ≠ ([] : List Todo) := by
  refine ⟨rfl, rfl, rfl, rfl, by decide⟩

/-- C8 (amended): after a registration call that actually creates an
account — a fresh name, a nonempty generated credential not already in use,
in a store whose todos all reference previously generated user ids —
authenticating with the returned credential and listing yields the empty
sequence. -/
theorem list_after_creating_register_empty (username freshKey : String)
    (s : Store)
    (hk : freshKey ≠ "")
    (hname : ∀ u ∈ s.users, u.username ≠ username)
    (hkey : ∀ u ∈ s.users, u.api_key ≠ freshKey)
    (hwf : ∀ t ∈ s.todos, t.user_id < s.nextUserId) :
    ∀ u, (get_current_user (some freshKey) (register username freshKey s).2).1 =
            .ok u →
      list_todos u (register username freshKey s).2 = [] := by
  have hfind : findUserByName s username = none := by
    unfold findUserByName
    rw [List.find?_eq_none]
    intro u hu
    simpa using hname u hu
  have hke : freshKey.isEmpty = false := by
    cases he : freshKey.isEmpty
    · rfl
    · exact absurd ((String.isEmpty_iff _).mp he) hk
  intro u hu
  have hs2 : (register username freshKey s).2 =
      { s with users := s.users ++ [⟨s.nextUserId, username, freshKey⟩],
               nextUserId := s.nextUserId + 1 } := by
    simp [register, hfind]
  rw [hs2] at hu ⊢
  have hlook : findUserByKey
      { s with users := s.users ++ [⟨s.nextUserId, username, freshKey⟩],
               nextUserId := s.nextUserId + 1 } freshKey =
      some ⟨s.nextUserId, username, freshKey⟩ := by
    unfold findUserByKey
    rw [List.find?_append]
    have hnone : s.users.find? (fun v => v.api_key == freshKey) = none := by
      rw [List.find?_eq_none]
      intro v hv
      simpa using hkey v hv
    simp [hnone]
  have huser : u = ⟨s.nextUserId, username, freshKey⟩ := by
    simp [get_current_user, hke, hlook] at hu
    exact hu.symm
  subst huser
  unfold list_todos
  rw [List.filter_eq_nil_iff]
  intro t ht
  have h1 := hwf t ht
  simp only [beq_iff_eq]
  omega

/-- C8 witness: creating "carol" in `storeA` and listing with her fresh
credential yields the empty sequence. -/
theorem list_after_creating_register_empty_witness :
    list_todos ⟨3, "carol", "k3"⟩ (register "carol" "k3" storeA).2 = [] := by
  exact list_after_creating_register_empty "carol" "k3" storeA (by decide)
    (by decide) (by decide) (by decide) ⟨3, "carol", "k3"⟩ rfl

end TodoApp
